import Mathlib

/-!
Verification of the rate-limit-aware Telegraph client pool (src/tgraph.py).

The file shallowly embeds the three components of the core:

* the per-account rate-limited wrapper (class Telegraph: methods
  create_page and _create_page, together with its mutable fields
  retries, last_run and the access token);
* the multi-account pool (class API: __init__, valid, count, create_page);
* the startup-sized concurrency gate (TelegraphIfy.max_concurrency and
  the bounded semaphore built from it).

The remote HTTP API is an external collaborator: it is modelled by an
oracle, a function from the index of the network attempt to the outcome
of that attempt (success, flood-control rejection with a wait value,
an API-level error, or a non-API exception) together with the wall-clock
duration of the attempt and the state of the read/write gate observed by
the flood handler at that moment.  Wall-clock time is modelled by the
rationals; sleeping advances time by the slept amount and a network call
advances time by its duration.
-/

/-- Outcome of one underlying network attempt, as distinguished by the
except-clauses of Telegraph.create_page (src/tgraph.py lines 43-64):
a successful page, a TelegraphException whose message starts with
FLOOD_WAIT_ carrying the parsed wait value, any other TelegraphException,
or a non-Telegraph exception (not caught by line 47, hence propagated). -/
inductive RemoteResult where
  | success (page : Nat)
  | floodWait (w : Nat)
  | apiError (msg : String)
  | exception (msg : String)
deriving DecidableEq, Repr

/-- Outcome of the create_account call issued by the flood handler
(src/tgraph.py line 57).  It is a remote call like any other: it can
succeed, raise a TelegraphException, or raise a non-Telegraph exception.
Because it runs inside the except block of lines 47-62, a failure is not
caught by anything in create_page and propagates to the caller. -/
inductive ProvisionResult where
  | ok
  | apiError (msg : String)
  | exception (msg : String)
deriving DecidableEq, Repr

/-- One entry of the remote oracle: the result of the attempt, the time the
attempt takes on the wire, whether some other caller holds the write
phase of the account gate at the moment the flood handler checks it
(src/tgraph.py line 53), and the outcome the create_account call of line
57 would have if the handler rotates on this rejection. -/
structure Attempt where
  result : RemoteResult
  dur : ℚ
  gateHeldByOther : Bool
  provision : ProvisionResult
deriving DecidableEq, Repr

/-- Mutable state of one Telegraph account object (src/tgraph.py lines
24-33): the retry counter, the last-call timestamp, and the generation of
the underlying access token (token_gen is bumped exactly when
create_account replaces the credential, so the credential changes iff
token_gen changes while the account object persists). -/
structure TGAccount where
  retries : Nat
  last_run : ℚ
  token_gen : Nat
deriving DecidableEq, Repr

/-- Observable side effects of one logical create_page operation.  The
provision effect records that the rotation create_account call of line
57 was issued; whether the credential actually changed is visible in the
token generation of the final state. -/
inductive Effect where
  | throttleSleep (amount : ℚ)
  | networkCall (t : ℚ)
  | backoffSleep (amount : ℚ)
  | provision
deriving DecidableEq, Repr

/-- Result of one logical create_page operation as seen by the caller:
the page, an OverflowError (line 38), or a propagated remote error. -/
inductive CallResult where
  | ok (page : Nat)
  | overflowError
  | apiError (msg : String)
  | exception (msg : String)
deriving DecidableEq, Repr

/-- Full outcome of a run of Telegraph.create_page: caller-visible result,
final account state, final wall-clock time, the emitted effects in order,
and the index of the next unconsumed oracle entry (equivalently, the
number of network attempts made so far). -/
structure RunOut where
  result : CallResult
  state : TGAccount
  time : ℚ
  effects : List Effect
  nextIdx : Nat
deriving DecidableEq, Repr

/-- Timing skeleton of Telegraph._create_page (src/tgraph.py lines 66-72):
entered at time now with recorded last-call timestamp last_run, it sleeps
max (1 - (now - last_run)) 0, issues the network call, and the call
returns after dur more time units. -/
structure ThrottledCall where
  sleepAmount : ℚ
  callTime : ℚ
  endTime : ℚ
deriving DecidableEq, Repr

/-- Telegraph._create_page, lines 66-72: the throttle sleep executed under
the read lock and request lock before the real network call.  The result
of the call itself comes from the oracle; this computes the times. -/
def Telegraph.throttle (last_run now dur : ℚ) : ThrottledCall :=
  let s := max (1 - (now - last_run)) 0
  ⟨s, now + s, now + s + dur⟩

/-- Recursion core of Telegraph.create_page (src/tgraph.py lines 35-64).
The budget argument equals 3 - retries throughout: the guard
retries >= 3 of line 36 holds exactly when the budget is 0, and the
recursive call of line 62 runs with retries incremented by one (line 52),
hence with the budget decremented by one.  Each attempt consumes oracle
entry k.  On success (lines 44-46) the retry counter is reset and the
last-call timestamp was recorded by _create_page (line 71).  On a flood
rejection (lines 49-62) the counter is incremented; if no other caller
holds the write gate, the handler either attempts to provision a fresh
credential (w >= 60, lines 55-59) or sleeps w + 1 seconds (line 61).
The create_account call of line 57 is itself a remote call: when it
succeeds the credential is replaced (token generation bumped) and the
operation is retried; when it raises, the exception is not caught by
anything in create_page (it occurs inside the except handler) and
propagates to the caller, with the retry counter left at its incremented
value and the credential unchanged.  After a completed sleep or rotation
the whole operation is retried (line 62).  Any other error from the
attempt itself propagates unchanged (line 64), leaving the state
untouched. -/
def Telegraph.create_page_go (oracle : Nat → Attempt) :
    Nat → Nat → ℚ → TGAccount → RunOut
  | 0, k, now, st => ⟨.overflowError, { st with retries := 0 }, now, [], k⟩
  | b + 1, k, now, st =>
    let a := oracle k
    let tc := Telegraph.throttle st.last_run now a.dur
    match a.result with
    | .success p =>
        ⟨.ok p, ⟨0, tc.endTime, st.token_gen⟩, tc.endTime,
          [.throttleSleep tc.sleepAmount, .networkCall tc.callTime], k + 1⟩
    | .apiError m =>
        ⟨.apiError m, st, tc.endTime,
          [.throttleSleep tc.sleepAmount, .networkCall tc.callTime], k + 1⟩
    | .exception m =>
        ⟨.exception m, st, tc.endTime,
          [.throttleSleep tc.sleepAmount, .networkCall tc.callTime], k + 1⟩
    | .floodWait w =>
        if a.gateHeldByOther then
          let rest := Telegraph.create_page_go oracle b (k + 1) tc.endTime
            ⟨st.retries + 1, st.last_run, st.token_gen⟩
          { rest with effects := .throttleSleep tc.sleepAmount ::
              .networkCall tc.callTime :: rest.effects }
        else if 60 ≤ w then
          match a.provision with
          | .ok =>
              let rest := Telegraph.create_page_go oracle b (k + 1) tc.endTime
                ⟨st.retries + 1, st.last_run, st.token_gen + 1⟩
              { rest with effects := .throttleSleep tc.sleepAmount ::
                  .networkCall tc.callTime :: .provision :: rest.effects }
          | .apiError m =>
              ⟨.apiError m, ⟨st.retries + 1, st.last_run, st.token_gen⟩,
                tc.endTime,
                [.throttleSleep tc.sleepAmount, .networkCall tc.callTime,
                 .provision], k + 1⟩
          | .exception m =>
              ⟨.exception m, ⟨st.retries + 1, st.last_run, st.token_gen⟩,
                tc.endTime,
                [.throttleSleep tc.sleepAmount, .networkCall tc.callTime,
                 .provision], k + 1⟩
        else
          let rest := Telegraph.create_page_go oracle b (k + 1)
            (tc.endTime + ((w : ℚ) + 1))
            ⟨st.retries + 1, st.last_run, st.token_gen⟩
          { rest with effects := .throttleSleep tc.sleepAmount ::
              .networkCall tc.callTime :: .backoffSleep ((w : ℚ) + 1) ::
              rest.effects }

/-- Telegraph.create_page (src/tgraph.py lines 35-64), entered at oracle
index k at time now in account state st. -/
def Telegraph.create_page (oracle : Nat → Attempt) (k : Nat) (now : ℚ)
    (st : TGAccount) : RunOut :=
  Telegraph.create_page_go oracle (3 - st.retries) k now st

/-- Prepend already-emitted effects to the outcome of a continuation run. -/
def withEffects (es : List Effect) (r : RunOut) : RunOut :=
  { r with effects := es ++ r.effects }

/-- A remote result matching the FLOOD_WAIT_ pattern of line 49. -/
def RemoteResult.isFlood : RemoteResult → Bool
  | .floodWait _ => true
  | _ => false

/-- Whether the flood handler rotates the credential on this attempt:
a flood rejection with wait at least 60 while no other caller holds the
write gate (src/tgraph.py lines 53-59). -/
def Attempt.rotates (a : Attempt) : Bool :=
  !a.gateHeldByOther &&
    (match a.result with
     | .floodWait w => 60 ≤ w
     | _ => false)

/-- Outcome of one startup-time remote call (get_account_info on line 88,
or create_account on lines 86 and 93): success, a TelegraphException, or
any other exception.  The distinction matters because the handler on line
90 catches only TelegraphException while the handlers on lines 96 and 98
catch everything. -/
inductive StartupOutcome where
  | ok
  | apiError
  | otherError
deriving DecidableEq, Repr

/-- Remote environment seen while setting up one configured credential in
API.__init__ (src/tgraph.py lines 80-99): the raw token string, the
outcome of the create_account call inside the try block (line 86, reached
only when the stripped token does not have length 60), the outcome of the
get_account_info probe (line 88, reached only when no earlier call
raised), and the outcome of the create_account call in the
TelegraphException handler (line 93, reached only on a TelegraphException
from the try block). -/
structure TokenEnv where
  token : List Char
  provision1 : StartupOutcome
  probe : StartupOutcome
  provision2 : StartupOutcome
deriving DecidableEq, Repr

/-- The str.strip() call of src/tgraph.py line 81: remove leading and
trailing whitespace from the token characters. -/
def pyStrip (s : List Char) : List Char :=
  (((s.dropWhile Char.isWhitespace).reverse).dropWhile Char.isWhitespace).reverse

/-- How a surviving pool member was admitted: by the get_account_info
probe succeeding (line 88) or by the fresh provisioning in the exception
handler succeeding (line 93). -/
inductive AdmitReason where
  | probed
  | provisioned
deriving DecidableEq, Repr

/-- Outcome of processing one credential at startup: whether the account
was appended to the pool (and why), and how many create_account
provisioning calls were attempted for this entry. -/
structure TokenResult where
  member : Option AdmitReason
  provisionArms : Nat
deriving DecidableEq, Repr

/-- Body of the per-token loop of API.__init__ (src/tgraph.py lines
80-99).  The token is stripped (line 81); if its length is not 60 a
replacement account is provisioned inside the try block (lines 84-87);
then the account-info probe runs (line 88) and on success the account is
appended (line 89).  A TelegraphException from the try block reaches the
handler of lines 90-97, which attempts one (more) provisioning and
appends on success; any failure there, and any non-Telegraph exception
anywhere, drops the entry (lines 96-99). -/
def API.setup_token (e : TokenEnv) : TokenResult :=
  if (pyStrip e.token).length ≠ 60 then
    match e.provision1 with
    | .ok =>
        match e.probe with
        | .ok => ⟨some .probed, 1⟩
        | .apiError =>
            match e.provision2 with
            | .ok => ⟨some .provisioned, 2⟩
            | _ => ⟨none, 2⟩
        | .otherError => ⟨none, 1⟩
    | .apiError =>
        match e.provision2 with
        | .ok => ⟨some .provisioned, 2⟩
        | _ => ⟨none, 2⟩
    | .otherError => ⟨none, 1⟩
  else
    match e.probe with
    | .ok => ⟨some .probed, 0⟩
    | .apiError =>
        match e.provision2 with
        | .ok => ⟨some .provisioned, 1⟩
        | _ => ⟨none, 1⟩
    | .otherError => ⟨none, 0⟩

/-- Whether the account-info probe of src/tgraph.py line 88 is reached
for this entry: either the stripped token has the plausible length 60
(so the in-try provisioning of line 86 is skipped), or the in-try
provisioning call succeeded. -/
def TokenEnv.probeReached (e : TokenEnv) : Prop :=
  (pyStrip e.token).length = 60 ∨ e.provision1 = .ok

/-- The whole construction loop of API.__init__ (src/tgraph.py lines
79-99): every configured token is processed independently; entries whose
setup fails are dropped and the loop continues with the next token. -/
def API.init_accounts (envs : List TokenEnv) : List (TokenEnv × AdmitReason) :=
  envs.filterMap fun e => (API.setup_token e).member.map fun rsn => (e, rsn)

/-- API.valid (src/tgraph.py lines 101-103): truthiness of the account
list. -/
def API.valid (accounts : List TGAccount) : Bool :=
  !accounts.isEmpty

/-- API.count (src/tgraph.py lines 105-107). -/
def API.count (accounts : List TGAccount) : Nat :=
  accounts.length

/-- Caller-visible outcome of API.create_page: the NotConfigured
TelegraphException of line 111, or the outcome of the delegated run on
the chosen member account. -/
inductive PoolResult where
  | notConfigured (msg : String)
  | page (r : RunOut)
deriving DecidableEq, Repr

/-- Network effects performed by a pool-level call. -/
def PoolResult.effects : PoolResult → List Effect
  | .notConfigured _ => []
  | .page r => r.effects

/-- API.create_page (src/tgraph.py lines 109-113).  The uniform random
draw of random.choice on line 113 is modelled by the index argument
choice: the member at position choice modulo the pool size is selected,
so for a pool of size n every index below n denotes one equiprobable
draw.  An empty pool raises before any account is consulted. -/
def API.create_page (accounts : List TGAccount) (choice : Nat)
    (oracle : Nat → Attempt) (now : ℚ) : PoolResult :=
  if h : accounts.isEmpty then
    .notConfigured "Telegraph token no set!"
  else
    .page (Telegraph.create_page oracle 0 now
      (accounts.get ⟨choice % accounts.length,
        Nat.mod_lt _ (List.length_pos.mpr (by simpa using h))⟩))

/-- Module-level startup (src/tgraph.py lines 116-121): when the
TELEGRAPH_TOKEN environment value is set, the pool is built from its
comma-separated tokens (the splitting itself is an external
collaborator), and a pool with no surviving account is discarded so that
the module-level api handle stays None. -/
def moduleApi (cfg : Option (List TokenEnv)) :
    Option (List (TokenEnv × AdmitReason)) :=
  match cfg with
  | none => none
  | some envs =>
      let accounts := API.init_accounts envs
      if accounts.isEmpty then none else some accounts

/-- TelegraphIfy.max_concurrency (src/tgraph.py line 132): the pool
account count when the api handle is set, the constant 10 otherwise. -/
def TelegraphIfy.max_concurrency (cfg : Option (List TokenEnv)) : Nat :=
  match moduleApi cfg with
  | some accounts => accounts.length
  | none => 10

/-- Permit capacity of the bounded semaphore built on src/tgraph.py line
135: threading.BoundedSemaphore is created with max_concurrency initial
permits, which is also its cap. -/
def TelegraphIfy.gateCapacity (cfg : Option (List TokenEnv)) : Nat :=
  TelegraphIfy.max_concurrency cfg

/-- Oracle answering every attempt alike. -/
def constOracle (a : Attempt) : Nat → Attempt :=
  fun _ => a

/-- Oracle rejecting every attempt with FLOOD_WAIT_w, gate free, with the
rotation provisioning call (if reached) succeeding. -/
def floodO (w : Nat) : Nat → Attempt :=
  constOracle ⟨.floodWait w, 0, false, .ok⟩

/-- Oracle failing every attempt with a non-flood TelegraphException. -/
def errO : Nat → Attempt :=
  constOracle ⟨.apiError "CONTENT_TEXT_REQUIRED", 0, false, .ok⟩

/-- Oracle failing every attempt with a non-Telegraph exception. -/
def excO : Nat → Attempt :=
  constOracle ⟨.exception "ConnectTimeout", 0, false, .ok⟩

/-- Oracle succeeding on every attempt. -/
def okO : Nat → Attempt :=
  constOracle ⟨.success 7, 0, false, .ok⟩

/-- Oracle with floods of wait 5 on the first two attempts and success on
the third. -/
def mixO : Nat → Attempt :=
  fun k => if k < 2 then ⟨.floodWait 5, 0, false, .ok⟩
    else ⟨.success 42, 0, false, .ok⟩

/-- Oracle rejecting every attempt with FLOOD_WAIT_70, gate free, whose
rotation provisioning call raises a TelegraphException. -/
def rotFailO : Nat → Attempt :=
  constOracle ⟨.floodWait 70, 0, false, .apiError "ACCESS_TOKEN_INVALID"⟩

/-- Oracle with floods of wait 5 on the first two attempts (backoff
sleeps), then FLOOD_WAIT_70 on the third with the rotation provisioning
call raising: all three attempts occur and all three return flood, yet
the operation ends in the propagated provisioning error. -/
def c1RotO : Nat → Attempt :=
  fun k => if k < 2 then ⟨.floodWait 5, 0, false, .ok⟩
    else ⟨.floodWait 70, 0, false, .apiError "ACCESS_TOKEN_INVALID"⟩

/-- Fresh account state. -/
def acc0 : TGAccount := ⟨0, 0, 0⟩

/-- Account state with a residual retry counter of 2. -/
def acc2 : TGAccount := ⟨2, 0, 0⟩

/-- A plausibly formatted 60-character token. -/
def token60 : List Char := List.replicate 60 'a'

/-- Startup environment in which the account-info probe raises a
non-Telegraph exception while both provisioning calls would succeed. -/
def envProbeCrash : TokenEnv := ⟨token60, .ok, .otherError, .ok⟩

/-- Startup environment in which everything succeeds. -/
def envOk : TokenEnv := ⟨token60, .ok, .ok, .ok⟩

/-- Startup environment in which the probe fails with a
TelegraphException and the replacement provisioning succeeds. -/
def envApiErr : TokenEnv := ⟨token60, .ok, .apiError, .ok⟩

/-- Startup environment with an implausibly short token whose in-try
replacement provisioning and probe succeed. -/
def envShort : TokenEnv := ⟨['a', 'b'], .ok, .ok, .ok⟩

/-- Configuration with a single healthy credential. -/
def cfg1 : Option (List TokenEnv) := some [envOk]

/-- A concrete two-account pool. -/
def pool2 : List TGAccount := [acc0, ⟨0, 5, 1⟩]

theorem withEffects_result (es : List Effect) (r : RunOut) :
    (withEffects es r).result = r.result := rfl

theorem withEffects_state (es : List Effect) (r : RunOut) :
    (withEffects es r).state = r.state := rfl

theorem withEffects_time (es : List Effect) (r : RunOut) :
    (withEffects es r).time = r.time := rfl

theorem withEffects_nextIdx (es : List Effect) (r : RunOut) :
    (withEffects es r).nextIdx = r.nextIdx := rfl

theorem withEffects_effects (es : List Effect) (r : RunOut) :
    (withEffects es r).effects = es ++ r.effects := rfl

/-- Unfolding of create_page when the cap has been reached on entry
(src/tgraph.py lines 36-38). -/
theorem Telegraph.step_overflow (oracle : Nat → Attempt) (k : Nat) (now : ℚ)
    (st : TGAccount) (h : 3 ≤ st.retries) :
    Telegraph.create_page oracle k now st =
      ⟨.overflowError, { st with retries := 0 }, now, [], k⟩ := by
  unfold Telegraph.create_page
  rw [Nat.sub_eq_zero_of_le h]
  rfl

/-- Unfolding of create_page on a successful attempt (lines 44-46). -/
theorem Telegraph.step_success (oracle : Nat → Attempt) (k : Nat) (now : ℚ)
    (st : TGAccount) (p : Nat) (h : st.retries < 3)
    (hres : (oracle k).result = .success p) :
    Telegraph.create_page oracle k now st =
      ⟨.ok p,
        ⟨0, (Telegraph.throttle st.last_run now (oracle k).dur).endTime, st.token_gen⟩,
        (Telegraph.throttle st.last_run now (oracle k).dur).endTime,
        [.throttleSleep (Telegraph.throttle st.last_run now (oracle k).dur).sleepAmount,
         .networkCall (Telegraph.throttle st.last_run now (oracle k).dur).callTime],
        k + 1⟩ := by
  have hb : 3 - st.retries = (2 - st.retries) + 1 := by omega
  unfold Telegraph.create_page
  rw [hb]
  simp [Telegraph.create_page_go, hres]

/-- Unfolding of create_page on a non-flood TelegraphException
(line 64): the error is re-raised and the state is untouched. -/
theorem Telegraph.step_apiError (oracle : Nat → Attempt) (k : Nat) (now : ℚ)
    (st : TGAccount) (m : String) (h : st.retries < 3)
    (hres : (oracle k).result = .apiError m) :
    Telegraph.create_page oracle k now st =
      ⟨.apiError m, st,
        (Telegraph.throttle st.last_run now (oracle k).dur).endTime,
        [.throttleSleep (Telegraph.throttle st.last_run now (oracle k).dur).sleepAmount,
         .networkCall (Telegraph.throttle st.last_run now (oracle k).dur).callTime],
        k + 1⟩ := by
  have hb : 3 - st.retries = (2 - st.retries) + 1 := by omega
  unfold Telegraph.create_page
  rw [hb]
  simp [Telegraph.create_page_go, hres]

/-- Unfolding of create_page on a non-Telegraph exception (not caught by
line 47): the exception propagates and the state is untouched. -/
theorem Telegraph.step_exception (oracle : Nat → Attempt) (k : Nat) (now : ℚ)
    (st : TGAccount) (m : String) (h : st.retries < 3)
    (hres : (oracle k).result = .exception m) :
    Telegraph.create_page oracle k now st =
      ⟨.exception m, st,
        (Telegraph.throttle st.last_run now (oracle k).dur).endTime,
        [.throttleSleep (Telegraph.throttle st.last_run now (oracle k).dur).sleepAmount,
         .networkCall (Telegraph.throttle st.last_run now (oracle k).dur).callTime],
        k + 1⟩ := by
  have hb : 3 - st.retries = (2 - st.retries) + 1 := by omega
  unfold Telegraph.create_page
  rw [hb]
  simp [Telegraph.create_page_go, hres]

/-- Unfolding of create_page on a flood rejection (lines 49-62): the
counter is incremented, the handler skips when another caller holds the
write gate, otherwise for w >= 60 it attempts to provision a fresh
credential (retrying on success, propagating the provisioning error on
failure) and for w < 60 it sleeps w + 1 seconds; after a completed
handling the whole operation is retried. -/
theorem Telegraph.step_flood (oracle : Nat → Attempt) (k : Nat) (now : ℚ)
    (st : TGAccount) (w : Nat) (h : st.retries < 3)
    (hres : (oracle k).result = .floodWait w) :
    Telegraph.create_page oracle k now st =
      (let tc := Telegraph.throttle st.last_run now (oracle k).dur
       if (oracle k).gateHeldByOther then
         withEffects [.throttleSleep tc.sleepAmount, .networkCall tc.callTime]
           (Telegraph.create_page oracle (k + 1) tc.endTime
             ⟨st.retries + 1, st.last_run, st.token_gen⟩)
       else if 60 ≤ w then
         match (oracle k).provision with
         | .ok =>
             withEffects [.throttleSleep tc.sleepAmount, .networkCall tc.callTime,
                 .provision]
               (Telegraph.create_page oracle (k + 1) tc.endTime
                 ⟨st.retries + 1, st.last_run, st.token_gen + 1⟩)
         | .apiError m =>
             ⟨.apiError m, ⟨st.retries + 1, st.last_run, st.token_gen⟩,
               tc.endTime,
               [.throttleSleep tc.sleepAmount, .networkCall tc.callTime,
                .provision], k + 1⟩
         | .exception m =>
             ⟨.exception m, ⟨st.retries + 1, st.last_run, st.token_gen⟩,
               tc.endTime,
               [.throttleSleep tc.sleepAmount, .networkCall tc.callTime,
                .provision], k + 1⟩
       else
         withEffects [.throttleSleep tc.sleepAmount, .networkCall tc.callTime,
             .backoffSleep ((w : ℚ) + 1)]
           (Telegraph.create_page oracle (k + 1) (tc.endTime + ((w : ℚ) + 1))
             ⟨st.retries + 1, st.last_run, st.token_gen⟩)) := by
  have hb : 3 - st.retries = (2 - st.retries) + 1 := by omega
  have hb2 : 3 - (st.retries + 1) = 2 - st.retries := by omega
  unfold Telegraph.create_page
  rw [hb, hb2]
  simp only [Telegraph.create_page_go, hres, withEffects]
  split_ifs <;> rfl

/-- When every one of the next b attempts is rejected with flood control
and every rotation among them provisions successfully, a run with budget
b ends in OverflowError with the counter reset to 0, whatever the waits,
the gate states and the durations are. -/
theorem Telegraph.go_floods (oracle : Nat → Attempt) :
    ∀ (b k : Nat) (now : ℚ) (st : TGAccount),
    (∀ j, j < b → ((oracle (k + j)).result).isFlood = true ∧
      ((oracle (k + j)).rotates = true → (oracle (k + j)).provision = .ok)) →
    (Telegraph.create_page_go oracle b k now st).result = .overflowError ∧
    (Telegraph.create_page_go oracle b k now st).state.retries = 0 := by
  intro b
  induction b with
  | zero =>
    intro k now st _
    simp [Telegraph.create_page_go]
  | succ b ih =>
    intro k now st h
    have h0 : ((oracle k).result).isFlood = true := by
      simpa using (h 0 (by omega)).1
    have hrot : (oracle k).rotates = true → (oracle k).provision = .ok := by
      simpa using (h 0 (by omega)).2
    have hshift : ∀ j, j < b → ((oracle (k + 1 + j)).result).isFlood = true ∧
        ((oracle (k + 1 + j)).rotates = true →
          (oracle (k + 1 + j)).provision = .ok) := by
      intro j hj
      have hx := h (j + 1) (by omega)
      rwa [show k + (j + 1) = k + 1 + j by omega] at hx
    cases hres : (oracle k).result with
    | success p => rw [hres] at h0; simp [RemoteResult.isFlood] at h0
    | apiError m => rw [hres] at h0; simp [RemoteResult.isFlood] at h0
    | exception m => rw [hres] at h0; simp [RemoteResult.isFlood] at h0
    | floodWait w =>
      simp only [Telegraph.create_page_go, hres]
      split_ifs with hg hw
      · exact ⟨(ih (k + 1) _ _ hshift).1, (ih (k + 1) _ _ hshift).2⟩
      · have hp : (oracle k).provision = .ok := by
          apply hrot
          simp [Attempt.rotates, hres, hg, hw]
        rw [hp]
        exact ⟨(ih (k + 1) _ _ hshift).1, (ih (k + 1) _ _ hshift).2⟩
      · exact ⟨(ih (k + 1) _ _ hshift).1, (ih (k + 1) _ _ hshift).2⟩

/-- Counterexample to C1 as stated: starting from a fresh counter, all
three attempts of one logical create_page operation are made (nextIdx is
3) and every one of them returns a flood-control error (waits 5, 5 and
70), yet the operation does not fail with OverflowError and the counter
does not return to 0: the third rejection rotates and its create_account
call (src/tgraph.py line 57) raises, so that error propagates with the
retry counter left at 3. -/
theorem create_page_flood3_provision_fail_cex :
    acc0.retries = 0 ∧
    ((c1RotO 0).result).isFlood = true ∧
    ((c1RotO 1).result).isFlood = true ∧
    ((c1RotO 2).result).isFlood = true ∧
    (Telegraph.create_page c1RotO 0 0 acc0).nextIdx = 3 ∧
    (Telegraph.create_page c1RotO 0 0 acc0).result =
      .apiError "ACCESS_TOKEN_INVALID" ∧
    (Telegraph.create_page c1RotO 0 0 acc0).result ≠ .overflowError ∧
    (Telegraph.create_page c1RotO 0 0 acc0).state.retries = 3 := by
  decide

/-- C1 as amended: for every account with a fresh retry counter, if the
underlying call is rejected with flood control on 3 consecutive attempts
of one logical create_page operation and the handling of each rejection
completes (the gate is held by another caller, the wait is below 60, or
the rotation provisioning call succeeds), the operation fails with
OverflowError and the retry counter is 0 afterwards, so a further call on
the same account enters as attempt 1. -/
theorem create_page_flood3_overflow (oracle : Nat → Attempt) (k : Nat)
    (now : ℚ) (st : TGAccount) (h0 : st.retries = 0)
    (hfl : ∀ j, j < 3 → ((oracle (k + j)).result).isFlood = true ∧
      ((oracle (k + j)).rotates = true → (oracle (k + j)).provision = .ok)) :
    (Telegraph.create_page oracle k now st).result = .overflowError ∧
    (Telegraph.create_page oracle k now st).state.retries = 0 := by
  unfold Telegraph.create_page
  rw [h0]
  exact Telegraph.go_floods oracle 3 k now st hfl

/-- C5: a remote error that does not match the flood-control pattern,
whether a TelegraphException (re-raised on line 64) or a non-Telegraph
exception (never caught), is propagated to the caller unchanged, and
exactly one underlying attempt is made for it: the run consumes exactly
one oracle entry and its effects contain exactly one network call. -/
theorem create_page_other_error_propagates (oracle : Nat → Attempt)
    (k : Nat) (now : ℚ) (st : TGAccount) (m : String) (h : st.retries < 3) :
    ((oracle k).result = .apiError m →
      Telegraph.create_page oracle k now st =
        ⟨.apiError m, st,
          (Telegraph.throttle st.last_run now (oracle k).dur).endTime,
          [.throttleSleep (Telegraph.throttle st.last_run now (oracle k).dur).sleepAmount,
           .networkCall (Telegraph.throttle st.last_run now (oracle k).dur).callTime],
          k + 1⟩) ∧
    ((oracle k).result = .exception m →
      Telegraph.create_page oracle k now st =
        ⟨.exception m, st,
          (Telegraph.throttle st.last_run now (oracle k).dur).endTime,
          [.throttleSleep (Telegraph.throttle st.last_run now (oracle k).dur).sleepAmount,
           .networkCall (Telegraph.throttle st.last_run now (oracle k).dur).callTime],
          k + 1⟩) :=
  ⟨fun hres => Telegraph.step_apiError oracle k now st m h hres,
   fun hres => Telegraph.step_exception oracle k now st m h hres⟩

/-- Witness for C5 at a concrete input: a fresh account and an oracle
answering with the non-flood API error CONTENT_TEXT_REQUIRED. -/
theorem create_page_other_error_propagates_witness :
    acc0.retries < 3 ∧
    (errO 0).result = .apiError "CONTENT_TEXT_REQUIRED" ∧
    Telegraph.create_page errO 0 0 acc0 =
      ⟨.apiError "CONTENT_TEXT_REQUIRED", acc0,
        (Telegraph.throttle 0 0 0).endTime,
        [.throttleSleep (Telegraph.throttle 0 0 0).sleepAmount,
         .networkCall (Telegraph.throttle 0 0 0).callTime], 1⟩ :=
  ⟨by decide, rfl,
    (create_page_other_error_propagates errO 0 0 acc0 "CONTENT_TEXT_REQUIRED"
      (by decide)).1 rfl⟩

/-- C10: when create_page fails with a non-flood remote error, the whole
account state, in particular the retry counter, is left exactly as it
was, not reset to 0; consequently a later call starting from that state
reaches OverflowError after only 3 - retries further consecutive
flood-control rejections whose handling completes. -/
theorem create_page_other_error_keeps_retries (oracle : Nat → Attempt)
    (k : Nat) (now : ℚ) (st : TGAccount) (m : String) (h : st.retries < 3)
    (hres : (oracle k).result = .apiError m ∨ (oracle k).result = .exception m) :
    (Telegraph.create_page oracle k now st).state = st ∧
    ∀ (oracle2 : Nat → Attempt) (k2 : Nat) (now2 : ℚ),
      (∀ j, j < 3 - st.retries → ((oracle2 (k2 + j)).result).isFlood = true ∧
        ((oracle2 (k2 + j)).rotates = true →
          (oracle2 (k2 + j)).provision = .ok)) →
      (Telegraph.create_page oracle2 k2 now2
        (Telegraph.create_page oracle k now st).state).result = .overflowError := by
  have hstate : (Telegraph.create_page oracle k now st).state = st := by
    rcases hres with hres | hres
    · rw [Telegraph.step_apiError oracle k now st m h hres]
    · rw [Telegraph.step_exception oracle k now st m h hres]
  refine ⟨hstate, ?_⟩
  intro oracle2 k2 now2 hfl
  rw [hstate]
  unfold Telegraph.create_page
  exact (Telegraph.go_floods oracle2 (3 - st.retries) k2 now2 st hfl).1

/-- Witness for C10 at a concrete input: an account with residual counter
2 sees one non-flood error; its state is untouched, and a later call
needs a single flood rejection to reach OverflowError. -/
theorem create_page_other_error_keeps_retries_witness :
    acc2.retries < 3 ∧
    (errO 0).result = .apiError "CONTENT_TEXT_REQUIRED" ∧
    (Telegraph.create_page errO 0 0 acc2).state = acc2 ∧
    (Telegraph.create_page (floodO 5) 0 0
      (Telegraph.create_page errO 0 0 acc2).state).result = .overflowError :=
  ⟨by decide, rfl,
    (create_page_other_error_keeps_retries errO 0 0 acc2 "CONTENT_TEXT_REQUIRED"
      (by decide) (Or.inl rfl)).1,
    (create_page_other_error_keeps_retries errO 0 0 acc2 "CONTENT_TEXT_REQUIRED"
      (by decide) (Or.inl rfl)).2 (floodO 5) 0 0
      (fun _ _ => ⟨rfl, fun _ => rfl⟩)⟩

/-- C2: from a fresh retry counter, flood-control rejections with waits
below 60 on attempts 1 and 2 followed by a successful attempt 3 yield the
page to the caller with no error visible; on that success the retry
counter is reset to 0 and the last-call timestamp is recorded (the final
state carries the completion time of the successful call). -/
theorem create_page_retry_success (oracle : Nat → Attempt) (k : Nat)
    (now : ℚ) (st : TGAccount) (p w1 w2 : Nat) (h0 : st.retries = 0)
    (hf1 : (oracle k).result = .floodWait w1) (hw1 : w1 < 60)
    (hf2 : (oracle (k + 1)).result = .floodWait w2) (hw2 : w2 < 60)
    (hs : (oracle (k + 2)).result = .success p) :
    (Telegraph.create_page oracle k now st).result = .ok p ∧
    (Telegraph.create_page oracle k now st).state.retries = 0 ∧
    (Telegraph.create_page oracle k now st).state.last_run =
      (Telegraph.create_page oracle k now st).time ∧
    (Telegraph.create_page oracle k now st).nextIdx = k + 3 := by
  have hsucc : ∀ (t : ℚ) (s : TGAccount), s.retries < 3 →
      (Telegraph.create_page oracle (k + 2) t s).result = .ok p ∧
      (Telegraph.create_page oracle (k + 2) t s).state.retries = 0 ∧
      (Telegraph.create_page oracle (k + 2) t s).state.last_run =
        (Telegraph.create_page oracle (k + 2) t s).time ∧
      (Telegraph.create_page oracle (k + 2) t s).nextIdx = k + 3 := by
    intro t s hlt
    rw [Telegraph.step_success oracle (k + 2) t s p hlt hs]
    exact ⟨rfl, rfl, rfl, rfl⟩
  have hmid : ∀ (t : ℚ) (s : TGAccount), s.retries = 1 →
      (Telegraph.create_page oracle (k + 1) t s).result = .ok p ∧
      (Telegraph.create_page oracle (k + 1) t s).state.retries = 0 ∧
      (Telegraph.create_page oracle (k + 1) t s).state.last_run =
        (Telegraph.create_page oracle (k + 1) t s).time ∧
      (Telegraph.create_page oracle (k + 1) t s).nextIdx = k + 3 := by
    intro t s h1
    rw [Telegraph.step_flood oracle (k + 1) t s w2 (by omega) hf2]
    have hk : k + 1 + 1 = k + 2 := by omega
    split_ifs with hg hw
    · simp only [withEffects_result, withEffects_state, withEffects_time,
        withEffects_nextIdx, hk]
      exact hsucc _ _ (by show s.retries + 1 < 3; omega)
    · exact absurd hw (by omega)
    · simp only [withEffects_result, withEffects_state, withEffects_time,
        withEffects_nextIdx, hk]
      exact hsucc _ _ (by show s.retries + 1 < 3; omega)
  rw [Telegraph.step_flood oracle k now st w1 (by omega) hf1]
  split_ifs with hg hw
  · simp only [withEffects_result, withEffects_state, withEffects_time,
      withEffects_nextIdx]
    exact hmid _ _ (by show st.retries + 1 = 1; omega)
  · exact absurd hw (by omega)
  · simp only [withEffects_result, withEffects_state, withEffects_time,
      withEffects_nextIdx]
    exact hmid _ _ (by show st.retries + 1 = 1; omega)

/-- Witness for C2 at a concrete input: floods of wait 5 on the first two
attempts, success with page 42 on the third. -/
theorem create_page_retry_success_witness :
    acc0.retries = 0 ∧
    (mixO 0).result = .floodWait 5 ∧ (mixO 1).result = .floodWait 5 ∧
    (mixO 2).result = .success 42 ∧
    (Telegraph.create_page mixO 0 0 acc0).result = .ok 42 ∧
    (Telegraph.create_page mixO 0 0 acc0).state.retries = 0 ∧
    (Telegraph.create_page mixO 0 0 acc0).state.last_run =
      (Telegraph.create_page mixO 0 0 acc0).time ∧
    (Telegraph.create_page mixO 0 0 acc0).nextIdx = 3 :=
  ⟨rfl, rfl, rfl, rfl,
    (create_page_retry_success mixO 0 0 acc0 42 5 5 rfl rfl (by decide) rfl
      (by decide) rfl).1,
    (create_page_retry_success mixO 0 0 acc0 42 5 5 rfl rfl (by decide) rfl
      (by decide) rfl).2.1,
    (create_page_retry_success mixO 0 0 acc0 42 5 5 rfl rfl (by decide) rfl
      (by decide) rfl).2.2.1,
    (create_page_retry_success mixO 0 0 acc0 42 5 5 rfl rfl (by decide) rfl
      (by decide) rfl).2.2.2⟩

/-- Counterexample to C3 as stated: a fresh account (counter 0, below
the cap) is rejected with FLOOD_WAIT_70 while the gate is free, but the
rotation create_account call raises a TelegraphException; the credential
is not replaced (token generation unchanged), the operation is not
retried (a single attempt: nextIdx is 1), and the provisioning error
propagates to the caller with the counter left incremented — against the
claim that for W at least 60 the credential is replaced and the whole
operation retried. -/
theorem create_page_rotate_fail_cex :
    acc0.retries < 3 ∧
    (rotFailO 0).result = .floodWait 70 ∧
    (rotFailO 0).gateHeldByOther = false ∧
    (Telegraph.create_page rotFailO 0 0 acc0).result =
      .apiError "ACCESS_TOKEN_INVALID" ∧
    (Telegraph.create_page rotFailO 0 0 acc0).state.token_gen =
      acc0.token_gen ∧
    (Telegraph.create_page rotFailO 0 0 acc0).state.retries = 1 ∧
    (Telegraph.create_page rotFailO 0 0 acc0).nextIdx = 1 := by
  decide

/-- C3 as amended: on a flood-control rejection carrying wait w, reached
with the counter below the cap and with no other caller holding the
write gate, the handler for w at least 60 attempts to provision a fresh
credential: on success the token generation is bumped on the same
account object, no backoff sleep is emitted, and the whole operation is
retried with the counter already incremented; if the provisioning call
raises, its error propagates to the caller with no retry, the credential
unchanged and the counter left incremented.  For w below 60 the account
sleeps exactly w + 1 seconds and the whole operation is retried with the
counter already incremented. -/
theorem create_page_flood_rotate_or_sleep (oracle : Nat → Attempt)
    (k : Nat) (now : ℚ) (st : TGAccount) (w : Nat) (h : st.retries < 3)
    (hres : (oracle k).result = .floodWait w)
    (hg : (oracle k).gateHeldByOther = false) :
    Telegraph.create_page oracle k now st =
      (let tc := Telegraph.throttle st.last_run now (oracle k).dur
       if 60 ≤ w then
         match (oracle k).provision with
         | .ok =>
             withEffects [.throttleSleep tc.sleepAmount, .networkCall tc.callTime,
                 .provision]
               (Telegraph.create_page oracle (k + 1) tc.endTime
                 ⟨st.retries + 1, st.last_run, st.token_gen + 1⟩)
         | .apiError m =>
             ⟨.apiError m, ⟨st.retries + 1, st.last_run, st.token_gen⟩,
               tc.endTime,
               [.throttleSleep tc.sleepAmount, .networkCall tc.callTime,
                .provision], k + 1⟩
         | .exception m =>
             ⟨.exception m, ⟨st.retries + 1, st.last_run, st.token_gen⟩,
               tc.endTime,
               [.throttleSleep tc.sleepAmount, .networkCall tc.callTime,
                .provision], k + 1⟩
       else
         withEffects [.throttleSleep tc.sleepAmount, .networkCall tc.callTime,
             .backoffSleep ((w : ℚ) + 1)]
           (Telegraph.create_page oracle (k + 1) (tc.endTime + ((w : ℚ) + 1))
             ⟨st.retries + 1, st.last_run, st.token_gen⟩)) := by
  rw [Telegraph.step_flood oracle k now st w h hres]
  simp [hg]

/-- Witness for the amended C3 at a concrete input: a fresh account
rejected with FLOOD_WAIT_70 whose rotation provisioning succeeds, so the
rotate branch is taken and retried. -/
theorem create_page_flood_rotate_or_sleep_witness :
    acc0.retries < 3 ∧
    (floodO 70 0).result = .floodWait 70 ∧
    (floodO 70 0).gateHeldByOther = false ∧
    (floodO 70 0).provision = .ok ∧
    Telegraph.create_page (floodO 70) 0 0 acc0 =
      (let tc := Telegraph.throttle 0 0 0
       if 60 ≤ 70 then
         match (floodO 70 0).provision with
         | .ok =>
             withEffects [.throttleSleep tc.sleepAmount, .networkCall tc.callTime,
                 .provision]
               (Telegraph.create_page (floodO 70) 1 tc.endTime ⟨1, 0, 1⟩)
         | .apiError m =>
             ⟨.apiError m, ⟨1, 0, 0⟩, tc.endTime,
               [.throttleSleep tc.sleepAmount, .networkCall tc.callTime,
                .provision], 1⟩
         | .exception m =>
             ⟨.exception m, ⟨1, 0, 0⟩, tc.endTime,
               [.throttleSleep tc.sleepAmount, .networkCall tc.callTime,
                .provision], 1⟩
       else
         withEffects [.throttleSleep tc.sleepAmount, .networkCall tc.callTime,
             .backoffSleep ((70 : ℚ) + 1)]
           (Telegraph.create_page (floodO 70) 1 (tc.endTime + ((70 : ℚ) + 1))
             ⟨1, 0, 0⟩)) :=
  ⟨by decide, rfl, rfl, rfl,
    create_page_flood_rotate_or_sleep (floodO 70) 0 0 acc0 70 (by decide) rfl rfl⟩

/-- Counterexample to C4 as stated: an account whose counter stands at 2
is rejected once more with FLOOD_WAIT_5 (which increments the counter to
the cap 3); the operation does fail with OverflowError and the counter is
reset to 0, but the backoff sleep of 5 + 1 seconds IS performed before
the failing re-entry, contradicting the claim that the sleep-or-rotate
step does not happen on the capping rejection. -/
theorem create_page_cap_still_sleeps_cex :
    (Telegraph.create_page (floodO 5) 0 0 acc2).result = .overflowError ∧
    (Telegraph.create_page (floodO 5) 0 0 acc2).state.retries = 0 ∧
    Effect.backoffSleep 6 ∈ (Telegraph.create_page (floodO 5) 0 0 acc2).effects := by
  rw [Telegraph.step_flood (floodO 5) 0 0 acc2 5 (by decide) rfl]
  have hg : (floodO 5 0).gateHeldByOther = false := rfl
  simp only [hg, Bool.false_eq_true, if_false]
  rw [if_neg (by omega)]
  rw [Telegraph.step_overflow (floodO 5) 1 _ _ (by decide)]
  refine ⟨rfl, rfl, ?_⟩
  simp [withEffects]
  norm_num

/-- C4 as amended: on the flood-control rejection that increments the
retry counter to its cap 3 (gate free), the operation still performs the
sleep-or-rotate step, with no further network attempt in any case.  For
w below 60 it sleeps w + 1 seconds and the re-entry resets the counter
to 0 and fails with OverflowError; for w at least 60 it attempts the
rotation provisioning: on success the credential is replaced and the
re-entry likewise fails with OverflowError and counter 0, while a
failing provisioning call propagates its own error with the counter left
at 3 and the credential unchanged. -/
theorem create_page_cap_overflow_after_backoff (oracle : Nat → Attempt)
    (k : Nat) (now : ℚ) (st : TGAccount) (w : Nat) (h2 : st.retries = 2)
    (hres : (oracle k).result = .floodWait w)
    (hg : (oracle k).gateHeldByOther = false) :
    Telegraph.create_page oracle k now st =
      (let tc := Telegraph.throttle st.last_run now (oracle k).dur
       if 60 ≤ w then
         match (oracle k).provision with
         | .ok =>
             ⟨.overflowError, ⟨0, st.last_run, st.token_gen + 1⟩, tc.endTime,
               [.throttleSleep tc.sleepAmount, .networkCall tc.callTime,
                .provision], k + 1⟩
         | .apiError m =>
             ⟨.apiError m, ⟨st.retries + 1, st.last_run, st.token_gen⟩,
               tc.endTime,
               [.throttleSleep tc.sleepAmount, .networkCall tc.callTime,
                .provision], k + 1⟩
         | .exception m =>
             ⟨.exception m, ⟨st.retries + 1, st.last_run, st.token_gen⟩,
               tc.endTime,
               [.throttleSleep tc.sleepAmount, .networkCall tc.callTime,
                .provision], k + 1⟩
       else
         ⟨.overflowError, ⟨0, st.last_run, st.token_gen⟩,
           tc.endTime + ((w : ℚ) + 1),
           [.throttleSleep tc.sleepAmount, .networkCall tc.callTime,
            .backoffSleep ((w : ℚ) + 1)], k + 1⟩) := by
  rw [Telegraph.step_flood oracle k now st w (by omega) hres]
  simp only [hg, Bool.false_eq_true, if_false]
  split_ifs with hw
  · cases hp : (oracle k).provision with
    | ok =>
      rw [Telegraph.step_overflow oracle (k + 1)
        (Telegraph.throttle st.last_run now (oracle k).dur).endTime
        ⟨st.retries + 1, st.last_run, st.token_gen + 1⟩
        (by show 3 ≤ st.retries + 1; omega)]
      rfl
    | apiError m => rfl
    | exception m => rfl
  · rw [Telegraph.step_overflow oracle (k + 1)
      ((Telegraph.throttle st.last_run now (oracle k).dur).endTime + ((w : ℚ) + 1))
      ⟨st.retries + 1, st.last_run, st.token_gen⟩
      (by show 3 ≤ st.retries + 1; omega)]
    rfl

/-- Witness for the amended C4 at a concrete input: counter at 2,
rejection with FLOOD_WAIT_70, gate free, rotation provisioning
succeeding, so the rotate arm runs before the OverflowError. -/
theorem create_page_cap_overflow_after_backoff_witness :
    acc2.retries = 2 ∧
    (floodO 70 0).result = .floodWait 70 ∧
    (floodO 70 0).gateHeldByOther = false ∧
    Telegraph.create_page (floodO 70) 0 0 acc2 =
      (let tc := Telegraph.throttle 0 0 0
       if 60 ≤ 70 then
         match (floodO 70 0).provision with
         | .ok =>
             ⟨.overflowError, ⟨0, 0, 1⟩, tc.endTime,
               [.throttleSleep tc.sleepAmount, .networkCall tc.callTime,
                .provision], 1⟩
         | .apiError m =>
             ⟨.apiError m, ⟨3, 0, 0⟩, tc.endTime,
               [.throttleSleep tc.sleepAmount, .networkCall tc.callTime,
                .provision], 1⟩
         | .exception m =>
             ⟨.exception m, ⟨3, 0, 0⟩, tc.endTime,
               [.throttleSleep tc.sleepAmount, .networkCall tc.callTime,
                .provision], 1⟩
       else
         ⟨.overflowError, ⟨0, 0, 0⟩, tc.endTime + ((70 : ℚ) + 1),
           [.throttleSleep tc.sleepAmount, .networkCall tc.callTime,
            .backoffSleep ((70 : ℚ) + 1)], 1⟩) :=
  ⟨rfl, rfl, rfl,
    create_page_cap_overflow_after_backoff (floodO 70) 0 0 acc2 70 rfl rfl rfl⟩

/-- Arithmetic core of the throttle guarantee: from a recorded timestamp
l, a call entered at time x at or after l and sleeping
max (1 - (x - l)) 0 starts no earlier than l + 1. -/
theorem throttle_ge_one (l x : ℚ) :
    l + 1 ≤ x + max (1 - (x - l)) 0 := by
  rcases le_total (1 - (x - l)) 0 with h0 | h0
  · rw [max_eq_right h0]
    linarith
  · rw [max_eq_left h0]
    linarith

/-- C8: across two consecutive successful create_page calls on one
account, the account sleeps max (1 - elapsed) 0 before each real network
call, elapsed being the time since the recorded last-call timestamp, and
the two network calls are separated by at least 1 time unit. -/
theorem create_page_min_interval (oracle : Nat → Attempt) (k : Nat)
    (now : ℚ) (st : TGAccount) (p p2 : Nat) (h : st.retries < 3)
    (hs1 : (oracle k).result = .success p) (hd1 : 0 ≤ (oracle k).dur)
    (hs2 : (oracle (k + 1)).result = .success p2) (now2 : ℚ)
    (_hnow2 : (Telegraph.create_page oracle k now st).time ≤ now2) :
    (Telegraph.create_page oracle k now st).effects =
      [.throttleSleep (max (1 - (now - st.last_run)) 0),
       .networkCall (now + max (1 - (now - st.last_run)) 0)] ∧
    (Telegraph.create_page oracle (k + 1) now2
        (Telegraph.create_page oracle k now st).state).effects =
      [.throttleSleep
         (max (1 - (now2 - (Telegraph.create_page oracle k now st).state.last_run)) 0),
       .networkCall
         (now2 + max (1 - (now2 - (Telegraph.create_page oracle k now st).state.last_run)) 0)] ∧
    (now + max (1 - (now - st.last_run)) 0) + 1 ≤
      now2 + max (1 - (now2 - (Telegraph.create_page oracle k now st).state.last_run)) 0 := by
  have hstep1 := Telegraph.step_success oracle k now st p h hs1
  have hstate : (Telegraph.create_page oracle k now st).state =
      ⟨0, (Telegraph.throttle st.last_run now (oracle k).dur).endTime,
        st.token_gen⟩ := by rw [hstep1]
  refine ⟨?_, ?_, ?_⟩
  · rw [hstep1]
    rfl
  · rw [hstate, Telegraph.step_success oracle (k + 1) now2
      ⟨0, (Telegraph.throttle st.last_run now (oracle k).dur).endTime,
        st.token_gen⟩ p2 (show (0 : Nat) < 3 by decide) hs2]
    rfl
  · rw [hstate]
    show (now + max (1 - (now - st.last_run)) 0) + 1 ≤
      now2 + max (1 - (now2 -
        (now + max (1 - (now - st.last_run)) 0 + (oracle k).dur))) 0
    have key := throttle_ge_one
      (now + max (1 - (now - st.last_run)) 0 + (oracle k).dur) now2
    linarith

/-- Witness for C8 at a concrete input: two back-to-back successful calls
with zero network duration, the second entered exactly when the first
completed. -/
theorem create_page_min_interval_witness :
    acc0.retries < 3 ∧ (okO 0).result = .success 7 ∧ 0 ≤ (okO 0).dur ∧
    (okO 1).result = .success 7 ∧
    ((Telegraph.create_page okO 0 0 acc0).effects =
       [.throttleSleep (max (1 - ((0 : ℚ) - acc0.last_run)) 0),
        .networkCall (0 + max (1 - ((0 : ℚ) - acc0.last_run)) 0)] ∧
     (Telegraph.create_page okO 1 (Telegraph.create_page okO 0 0 acc0).time
         (Telegraph.create_page okO 0 0 acc0).state).effects =
       [.throttleSleep
          (max (1 - ((Telegraph.create_page okO 0 0 acc0).time -
            (Telegraph.create_page okO 0 0 acc0).state.last_run)) 0),
        .networkCall
          ((Telegraph.create_page okO 0 0 acc0).time +
            max (1 - ((Telegraph.create_page okO 0 0 acc0).time -
              (Telegraph.create_page okO 0 0 acc0).state.last_run)) 0)] ∧
     (0 + max (1 - ((0 : ℚ) - acc0.last_run)) 0) + 1 ≤
       (Telegraph.create_page okO 0 0 acc0).time +
         max (1 - ((Telegraph.create_page okO 0 0 acc0).time -
           (Telegraph.create_page okO 0 0 acc0).state.last_run)) 0) :=
  ⟨by decide, rfl, le_refl 0, rfl,
    create_page_min_interval okO 0 0 acc0 7 7 (by decide) rfl (le_refl 0) rfl
      (Telegraph.create_page okO 0 0 acc0).time (le_refl _)⟩

/-- C6: a pool whose surviving account collection is empty reports
valid = false and count = 0, and every pool-level create_page call fails
at once with the NotConfigured error, making no network call and touching
no account; a non-empty pool delegates to the member selected by the
uniform random draw (every index below the pool size is one equiprobable
draw of random.choice). -/
theorem pool_create_page_spec (accounts : List TGAccount) (choice : Nat)
    (oracle : Nat → Attempt) (now : ℚ) :
    (accounts = [] →
      API.valid accounts = false ∧ API.count accounts = 0 ∧
      API.create_page accounts choice oracle now =
        .notConfigured "Telegraph token no set!" ∧
      (API.create_page accounts choice oracle now).effects = []) ∧
    (∀ h : choice < accounts.length,
      API.create_page accounts choice oracle now =
        .page (Telegraph.create_page oracle 0 now (accounts.get ⟨choice, h⟩))) := by
  constructor
  · rintro rfl
    exact ⟨rfl, rfl, rfl, rfl⟩
  · intro h
    have hne : ¬accounts.isEmpty = true := by
      cases accounts with
      | nil => simp at h
      | cons a l => simp [List.isEmpty]
    unfold API.create_page
    rw [dif_neg hne]
    have hmod : choice % accounts.length = choice := Nat.mod_eq_of_lt h
    simp only [hmod]

/-- Witness for C6 at concrete inputs: the empty pool and a two-account
pool with draw index 1. -/
theorem pool_create_page_spec_witness :
    (API.valid [] = false ∧ API.count [] = 0 ∧
     API.create_page [] 0 okO 0 = .notConfigured "Telegraph token no set!" ∧
     (API.create_page [] 0 okO 0).effects = []) ∧
    (1 < pool2.length ∧
     API.create_page pool2 1 okO 0 =
       .page (Telegraph.create_page okO 0 0 (pool2.get ⟨1, by decide⟩))) :=
  ⟨(pool_create_page_spec ([] : List TGAccount) 0 okO 0).1 rfl,
   by decide,
   (pool_create_page_spec pool2 1 okO 0).2 (by decide)⟩

/-- Counterexample to C7 as stated: a credential of plausible length 60
whose account-info probe fails with a non-Telegraph exception (for
example a network timeout) is dropped by the handler of src/tgraph.py
lines 98-99 with zero provisioning attempts, although the replacement
provisioning would have succeeded; the claim that every failed probe
leads to an attempted fresh provisioning is therefore false. -/
theorem pool_setup_probe_crash_cex :
    envProbeCrash.probe = .otherError ∧
    envProbeCrash.provision2 = .ok ∧
    (API.setup_token envProbeCrash).member = none ∧
    (API.setup_token envProbeCrash).provisionArms = 0 := by
  decide

/-- C7 as amended: an account is retained only when its last setup step
succeeded (the probe for members admitted as probed, the replacement
provisioning for members admitted as provisioned); a credential of
implausible format (stripped length not 60) always gets a replacement
provisioning attempt inside the try block; whenever the account-info
probe is reached and fails with a TelegraphException, exactly one
further provisioning attempt is made and the entry is retained exactly
when that attempt succeeds; a reached probe failing with a non-Telegraph
exception drops the entry with no further provisioning attempt; and
construction processes every entry independently, never aborting the
pool. -/
theorem pool_setup_amended :
    (∀ e : TokenEnv,
      ((API.setup_token e).member = some .probed → e.probe = .ok) ∧
      ((API.setup_token e).member = some .provisioned → e.provision2 = .ok)) ∧
    (∀ e : TokenEnv, (pyStrip e.token).length ≠ 60 →
      1 ≤ (API.setup_token e).provisionArms) ∧
    (∀ e : TokenEnv, e.probeReached → e.probe = .apiError →
      (API.setup_token e).provisionArms =
        (if (pyStrip e.token).length ≠ 60 then 1 else 0) + 1 ∧
      ((API.setup_token e).member.isSome ↔ e.provision2 = .ok)) ∧
    (∀ e : TokenEnv, e.probeReached → e.probe = .otherError →
      (API.setup_token e).member = none ∧
      (API.setup_token e).provisionArms =
        (if (pyStrip e.token).length ≠ 60 then 1 else 0)) ∧
    (∀ (e : TokenEnv) (rest : List TokenEnv),
      API.init_accounts (e :: rest) =
        ((API.setup_token e).member.map fun rsn => (e, rsn)).toList ++
          API.init_accounts rest) := by
  refine ⟨?_, ?_, ?_, ?_, ?_⟩
  · rintro ⟨t, p1, pr, p2⟩
    unfold API.setup_token
    split_ifs <;> cases p1 <;> cases pr <;> cases p2 <;> simp
  · rintro ⟨t, p1, pr, p2⟩ hl
    unfold API.setup_token
    rw [if_pos hl]
    cases p1 <;> cases pr <;> cases p2 <;> simp
  · rintro ⟨t, p1, pr, p2⟩ hreach hpr
    cases hpr
    unfold API.setup_token
    unfold TokenEnv.probeReached at hreach
    split_ifs with hfmt
    · rcases hreach with h60 | hok
      · exact absurd h60 hfmt
      · cases hok
        cases p2 <;> simp
    · cases p2 <;> simp
  · rintro ⟨t, p1, pr, p2⟩ hreach hpr
    cases hpr
    unfold API.setup_token
    unfold TokenEnv.probeReached at hreach
    split_ifs with hfmt
    · rcases hreach with h60 | hok
      · exact absurd h60 hfmt
      · cases hok
        simp
    · simp
  · intro e rest
    cases hm : (API.setup_token e).member <;>
      simp [API.init_accounts, List.filterMap_cons, hm]

/-- Witness for the amended C7 at concrete inputs: a short token (in-try
replacement provisioning attempted), a 60-character token whose probe
raises a TelegraphException and whose replacement provisioning succeeds,
and one whose probe raises a non-Telegraph exception. -/
theorem pool_setup_amended_witness :
    (pyStrip envShort.token).length ≠ 60 ∧
    1 ≤ (API.setup_token envShort).provisionArms ∧
    envApiErr.probeReached ∧
    envApiErr.probe = .apiError ∧
    ((API.setup_token envApiErr).provisionArms =
       (if (pyStrip envApiErr.token).length ≠ 60 then 1 else 0) + 1 ∧
     ((API.setup_token envApiErr).member.isSome ↔
       envApiErr.provision2 = .ok)) ∧
    envProbeCrash.probeReached ∧
    envProbeCrash.probe = .otherError ∧
    ((API.setup_token envProbeCrash).member = none ∧
     (API.setup_token envProbeCrash).provisionArms =
       (if (pyStrip envProbeCrash.token).length ≠ 60 then 1 else 0)) :=
  ⟨by decide,
    pool_setup_amended.2.1 envShort (by decide),
    Or.inl (by decide), rfl,
    pool_setup_amended.2.2.1 envApiErr (Or.inl (by decide)) rfl,
    Or.inl (by decide), rfl,
    pool_setup_amended.2.2.2.1 envProbeCrash (Or.inl (by decide)) rfl⟩

/-- C9: the permit capacity of the concurrency gate equals the pool
account count at startup when the module-level api handle is set, and
equals the default 10 when it is not. -/
theorem gate_capacity_spec :
    (∀ (cfg : Option (List TokenEnv)) (accounts : List (TokenEnv × AdmitReason)),
      moduleApi cfg = some accounts →
      TelegraphIfy.gateCapacity cfg = accounts.length) ∧
    (∀ cfg : Option (List TokenEnv), moduleApi cfg = none →
      TelegraphIfy.gateCapacity cfg = 10) := by
  constructor
  · intro cfg accounts h
    unfold TelegraphIfy.gateCapacity TelegraphIfy.max_concurrency
    rw [h]
  · intro cfg h
    unfold TelegraphIfy.gateCapacity TelegraphIfy.max_concurrency
    rw [h]

/-- Witness for C9 at concrete inputs: a configuration with one healthy
credential (capacity 1) and the unset configuration (capacity 10). -/
theorem gate_capacity_spec_witness :
    moduleApi cfg1 = some [(envOk, .probed)] ∧
    TelegraphIfy.gateCapacity cfg1 = [(envOk, AdmitReason.probed)].length ∧
    moduleApi none = none ∧
    TelegraphIfy.gateCapacity none = 10 :=
  ⟨by decide,
    gate_capacity_spec.1 cfg1 [(envOk, .probed)] (by decide),
    rfl,
    gate_capacity_spec.2 none rfl⟩

/-- Witness for the amended C1 at a concrete input: a fresh account,
every attempt rejected with FLOOD_WAIT_5 (no rotation is ever taken, so
every handling completes). -/
theorem create_page_flood3_overflow_witness :
    acc0.retries = 0 ∧
    ((floodO 5 0).result).isFlood = true ∧
    (floodO 5 0).provision = .ok ∧
    (Telegraph.create_page (floodO 5) 0 0 acc0).result = .overflowError ∧
    (Telegraph.create_page (floodO 5) 0 0 acc0).state.retries = 0 :=
  ⟨rfl, rfl, rfl,
    (create_page_flood3_overflow (floodO 5) 0 0 acc0 rfl
      (fun _ _ => ⟨rfl, fun _ => rfl⟩)).1,
    (create_page_flood3_overflow (floodO 5) 0 0 acc0 rfl
      (fun _ _ => ⟨rfl, fun _ => rfl⟩)).2⟩
